import Mathlib

/-!
Shallow embedding of the USDFC subgraph's classification and aggregation
engine (AssemblyScript handlers), together with theorems settling the
frozen claims about it.

Modelling conventions:
* `BigInt` (arbitrary-precision integer) is embedded as `ℤ`.
* `BigDecimal` is embedded as `ℚ` (exact rational arithmetic).
* `Bytes` addresses are embedded as lowercase hex `String`s; `Address.equals`
  becomes string equality.
* Entity stores (`Entity.load` / `entity.save()`) become explicit maps from
  keys to records (or `Option` records), threaded through handler functions.
* Duck-typed classification constants stay the raw strings of the source.
-/

namespace USDFC

/-- Zero address constant (`0x0000...0000`), as used by the handlers. -/
def zeroAddr : String := "0x0000000000000000000000000000000000000000"

/-- Trove-manager contract address (lowercased), from `getProtocolAddresses`. -/
def troveManagerAddr : String := "0x5ab87c2398454125dd424425e39c8909bbe16022"

/-- Stability-pool contract address (lowercased), from `getProtocolAddresses`. -/
def stabilityPoolAddr : String := "0x791ad78bbc58324089d3e0a8689e7d045b9592b5"

/-- Staking contract address (lowercased), from `getProtocolAddresses`. -/
def stakingAddr : String := "0xc8707b3d426e7d7a0706c48dcd1a4b83bc220db3"

/-- `clamp` from `src/utils/helpers.ts`: clamp a value between min and max. -/
def clamp (value lo hi : ℚ) : ℚ :=
  if value < lo then lo else if hi < value then hi else value

/-- `calculateCollateralRatio` from `src/utils/helpers.ts`:
`collateral / debt * 100`, with sentinel `99999` when debt is zero. -/
def calculateCollateralRatio (collateral debt : ℤ) : ℚ :=
  if debt = 0 then 99999
  else (collateral : ℚ) / (debt : ℚ) * 100

/-- `safeDivision` from `src/utils/helpers.ts`: 0 when the denominator is 0. -/
def safeDivision (numerator denominator : ℤ) : ℚ :=
  if denominator = 0 then 0 else (numerator : ℚ) / (denominator : ℚ)

-- ==========================================
-- Transfer amount tiers (src/protocol/usdfc-token-final.ts)
-- ==========================================

/-- `TransferAmountTiers.DUST_THRESHOLD` = 0.1 USDFC in 18-decimal base units. -/
def DUST_THRESHOLD : ℤ := 100000000000000000

/-- `TransferAmountTiers.MICRO_THRESHOLD` = 1 USDFC. -/
def MICRO_THRESHOLD : ℤ := 1000000000000000000

/-- `TransferAmountTiers.SMALL_THRESHOLD` = 100 USDFC. -/
def SMALL_THRESHOLD : ℤ := 100000000000000000000

/-- `TransferAmountTiers.MEDIUM_THRESHOLD` = 1000 USDFC. -/
def MEDIUM_THRESHOLD : ℤ := 1000000000000000000000

/-- `TransferAmountTiers.LARGE_THRESHOLD` = 10000 USDFC. -/
def LARGE_THRESHOLD : ℤ := 10000000000000000000000

/-- `TransferAmountTiers.WHALE_THRESHOLD` = 100000 USDFC. -/
def WHALE_THRESHOLD : ℤ := 100000000000000000000000

/-- `TransferAmountTiers.INSTITUTIONAL_THRESHOLD` = 1M USDFC. -/
def INSTITUTIONAL_THRESHOLD : ℤ := 1000000000000000000000000

/-- `getTransferAmountTier` from `src/protocol/usdfc-token-final.ts`. -/
def getTransferAmountTier (amount : ℤ) : String :=
  if amount < DUST_THRESHOLD then "DUST"
  else if amount < MICRO_THRESHOLD then "MICRO"
  else if amount < SMALL_THRESHOLD then "SMALL"
  else if amount < MEDIUM_THRESHOLD then "MEDIUM"
  else if amount < LARGE_THRESHOLD then "LARGE"
  else if amount < WHALE_THRESHOLD then "WHALE"
  else "INSTITUTIONAL"

-- ==========================================
-- Transfer type classification (src/protocol/usdfc-token-final.ts)
-- ==========================================

/-- `getProtocolAddresses` from `src/protocol/usdfc-token-final.ts`: the
address-to-role map, as an association list (lowercased keys). -/
def getProtocolAddresses : List (String × String) :=
  [(troveManagerAddr, "TROVE_MANAGER"),
   (stabilityPoolAddr, "STABILITY_POOL"),
   (stakingAddr, "STAKING")]

/-- Lookup in the protocol-address map (`Map.has` / `Map.get`). -/
def lookupRole (address : String) : Option String :=
  (getProtocolAddresses.find? (fun p => p.fst == address)).map Prod.snd

/-- `isProtocolAddress` from `src/protocol/usdfc-token-final.ts`. -/
def isProtocolAddress (address : String) : Bool :=
  (lookupRole address).isSome

/-- `isKnownDexAddress` from `src/protocol/usdfc-token-final.ts`
(a placeholder one-element list). -/
def isKnownDexAddress (address : String) : Bool :=
  address == "0x0000000000000000000000000000000000000001"

/-- `isKnownBridgeAddress` from `src/protocol/usdfc-token-final.ts`
(a placeholder one-element list). -/
def isKnownBridgeAddress (address : String) : Bool :=
  address == "0x0000000000000000000000000000000000000002"

/-- `getProtocolOperationType` from `src/protocol/usdfc-token-final.ts`:
direction-sensitive classification for protocol-contract transfers. -/
def getProtocolOperationType (fromAddr toAddr : String) : String :=
  let fromType := lookupRole fromAddr
  let toType := lookupRole toAddr
  if fromType = some "TROVE_MANAGER" ∨ toType = some "TROVE_MANAGER" then
    "LIQUIDATION_REWARD"
  else if fromType = some "STABILITY_POOL" then
    "STABILITY_WITHDRAWAL"
  else if toType = some "STABILITY_POOL" then
    "STABILITY_DEPOSIT"
  else if fromType = some "STAKING" ∨ toType = some "STAKING" then
    "STAKING_OPERATION"
  else if fromType.isSome ∨ toType.isSome then
    "NORMAL"
  else
    "NORMAL"

/-- `getConfigurableTransferType` from `src/protocol/usdfc-token-final.ts`:
mint/burn, protocol, DEX, bridge, then default, in source order. -/
def getConfigurableTransferType (fromAddr toAddr : String) (value : ℤ) : String :=
  if fromAddr = zeroAddr then "MINT_TO_BORROWER"
  else if toAddr = zeroAddr then "BURN_FROM_REPAYMENT"
  else if isProtocolAddress fromAddr ∨ isProtocolAddress toAddr then
    getProtocolOperationType fromAddr toAddr
  else if isKnownDexAddress fromAddr then "DEX_SWAP_IN"
  else if isKnownDexAddress toAddr then "DEX_SWAP_OUT"
  else if isKnownBridgeAddress fromAddr then "BRIDGE_WITHDRAWAL"
  else if isKnownBridgeAddress toAddr then "BRIDGE_DEPOSIT"
  else "NORMAL"

-- ==========================================
-- Balance updates (src/protocol/usdfc-token-final.ts)
-- ==========================================

/-- `updateAccountBalances` from `src/protocol/usdfc-token-final.ts`, acting
on the store of `usdfcBalance` fields (accounts are created lazily with
balance zero, so the store is a total map defaulting to 0). -/
def updateAccountBalances (fromAddr toAddr : String) (value : ℤ)
    (bal : String → ℤ) : String → ℤ :=
  let bal1 := if fromAddr = zeroAddr then bal
    else Function.update bal fromAddr (bal fromAddr - value)
  if toAddr = zeroAddr then bal1
  else Function.update bal1 toAddr (bal1 toAddr + value)

-- ==========================================
-- Account entity and the universal transaction hub
-- (src/core/universal-transaction.ts)
-- ==========================================

/-- The `Account` entity, with the fields read or written by
`ensureAccount`, `updateAccountActivity`, `updateActivityCounters`,
`updateUserIntelligence` and `updateAccountBalances`. -/
structure Account where
  usdfcBalance : ℤ
  totalTransactionCount : ℤ
  totalVolumeIn : ℤ
  totalVolumeOut : ℤ
  netVolume : ℤ
  firstSeenBlock : ℤ
  firstSeenTimestamp : ℤ
  lastActiveBlock : ℤ
  lastActiveTimestamp : ℤ
  daysSinceFirstSeen : ℤ
  daysSinceLastActive : ℤ
  contractTransactionCount : ℤ
  tokenTransferCount : ℤ
  internalTransactionCount : ℤ
  systemLogCount : ℤ
  protocolOperationCount : ℤ
  dexActivityCount : ℤ
  bridgeActivityCount : ℤ
  p2pTransferCount : ℤ
  defiIntegrationCount : ℤ
  protocolVolume : ℤ
  dexVolume : ℤ
  bridgeVolume : ℤ
  p2pVolume : ℤ
  defiIntegrationVolume : ℤ
  userType : String
  riskScore : ℚ
  composabilityScore : ℚ
  influenceScore : ℚ
  retentionScore : ℚ
deriving DecidableEq

/-- The account state written by `ensureAccount` in
`src/core/universal-transaction.ts` for a never-seen address
(`getCurrentBlock` / `getCurrentTimestamp` are the source's
placeholder zeros). -/
def initialAccount : Account where
  usdfcBalance := 0
  totalTransactionCount := 0
  totalVolumeIn := 0
  totalVolumeOut := 0
  netVolume := 0
  firstSeenBlock := 0
  firstSeenTimestamp := 0
  lastActiveBlock := 0
  lastActiveTimestamp := 0
  daysSinceFirstSeen := 0
  daysSinceLastActive := 0
  contractTransactionCount := 0
  tokenTransferCount := 0
  internalTransactionCount := 0
  systemLogCount := 0
  protocolOperationCount := 0
  dexActivityCount := 0
  bridgeActivityCount := 0
  p2pTransferCount := 0
  defiIntegrationCount := 0
  protocolVolume := 0
  dexVolume := 0
  bridgeVolume := 0
  p2pVolume := 0
  defiIntegrationVolume := 0
  userType := "RETAIL_USER"
  riskScore := 50
  composabilityScore := 0
  influenceScore := 0
  retentionScore := 50

/-- `updateActivityCounters` from `src/core/universal-transaction.ts`:
per-ecosystem activity counter and volume, then `netVolume` recompute. -/
def updateActivityCounters (account : Account) (_category ecosystem : String)
    (value : ℤ) : Account :=
  let a1 :=
    if ecosystem = "PROTOCOL_NATIVE" then
      { account with
        protocolOperationCount := account.protocolOperationCount + 1,
        protocolVolume := account.protocolVolume + value }
    else if ecosystem = "DEX_ECOSYSTEM" then
      { account with
        dexActivityCount := account.dexActivityCount + 1,
        dexVolume := account.dexVolume + value }
    else if ecosystem = "BRIDGE_ECOSYSTEM" then
      { account with
        bridgeActivityCount := account.bridgeActivityCount + 1,
        bridgeVolume := account.bridgeVolume + value }
    else if ecosystem = "P2P_ECOSYSTEM" then
      { account with
        p2pTransferCount := account.p2pTransferCount + 1,
        p2pVolume := account.p2pVolume + value }
    else if ecosystem = "DEFI_ECOSYSTEM" then
      { account with
        defiIntegrationCount := account.defiIntegrationCount + 1,
        defiIntegrationVolume := account.defiIntegrationVolume + value }
    else account
  { a1 with netVolume := a1.totalVolumeIn - a1.totalVolumeOut }

/-- `updateUserIntelligence` from `src/core/universal-transaction.ts`:
user-type reclassification (first match wins, otherwise the stored type is
left unchanged), composability score, influence score. -/
def updateUserIntelligence (account : Account) (_category _ecosystem : String)
    (_value : ℤ) : Account :=
  let totalActivity := account.totalTransactionCount
  let dexRatio : ℚ :=
    if 0 < totalActivity then
      (account.dexActivityCount : ℚ) / (totalActivity : ℚ) else 0
  let protocolRatio : ℚ :=
    if 0 < totalActivity then
      (account.protocolOperationCount : ℚ) / (totalActivity : ℚ) else 0
  let newUserType :=
    if dexRatio > 0.6 then "DEX_TRADER"
    else if protocolRatio > 0.8 then "PROTOCOL_NATIVE"
    else if totalActivity > 100 then "POWER_USER"
    else if account.bridgeActivityCount > 5 then "BRIDGE_USER"
    else if account.defiIntegrationCount > 10 then "DEFI_USER"
    else account.userType
  let ecosystemCount : ℕ :=
    (if 0 < account.protocolOperationCount then 1 else 0) +
    (if 0 < account.dexActivityCount then 1 else 0) +
    (if 0 < account.bridgeActivityCount then 1 else 0) +
    (if 0 < account.p2pTransferCount then 1 else 0) +
    (if 0 < account.defiIntegrationCount then 1 else 0)
  let composability : ℚ := (ecosystemCount : ℚ) * 20
  let volumeScore : ℚ :=
    ((account.totalVolumeIn + account.totalVolumeOut : ℤ) : ℚ) /
      1000000000000000000
  let activityScore : ℚ := (totalActivity : ℚ)
  let influence0 : ℚ := (volumeScore + activityScore) / 100
  let influence : ℚ := if influence0 > 100 then 100 else influence0
  { account with
    userType := newUserType,
    composabilityScore := composability,
    influenceScore := influence }

-- ==========================================
-- Ecosystem / daily stats (src/core/universal-transaction.ts)
-- ==========================================

/-- The `EcosystemStats` global singleton, fields per
`initializeEcosystemStats`. -/
structure EcosystemStats where
  totalSupply : ℤ
  totalDebt : ℤ
  activeTroveCount : ℤ
  holderCount : ℤ
  averageCollateralRatio : ℚ
  medianCollateralRatio : ℚ
  protocolHealth : ℚ
  liquidationRisk : ℚ
  ecosystemUserCount : ℤ
  dexTradingVolume : ℤ
  bridgeVolume : ℤ
  p2pVolume : ℤ
  defiIntegrationVolume : ℤ
  totalEcosystemVolume : ℤ
  dailyActiveUsers : ℤ
  weeklyActiveUsers : ℤ
  monthlyActiveUsers : ℤ
  userRetentionRate : ℚ
  userAcquisitionRate : ℚ
  protocolIntegrations : ℤ
  crossProtocolOperations : ℤ
  composabilityScore : ℚ
  innovationIndex : ℚ
  predictedGrowth : ℚ
  ecosystemHealthScore : ℚ
  lastUpdateBlock : ℤ
  lastUpdateTimestamp : ℤ
deriving DecidableEq

/-- `initializeEcosystemStats` from `src/core/universal-transaction.ts`. -/
def initEcosystemStats : EcosystemStats where
  totalSupply := 0
  totalDebt := 0
  activeTroveCount := 0
  holderCount := 0
  averageCollateralRatio := 0
  medianCollateralRatio := 0
  protocolHealth := 100
  liquidationRisk := 0
  ecosystemUserCount := 0
  dexTradingVolume := 0
  bridgeVolume := 0
  p2pVolume := 0
  defiIntegrationVolume := 0
  totalEcosystemVolume := 0
  dailyActiveUsers := 0
  weeklyActiveUsers := 0
  monthlyActiveUsers := 0
  userRetentionRate := 0
  userAcquisitionRate := 0
  protocolIntegrations := 0
  crossProtocolOperations := 0
  composabilityScore := 0
  innovationIndex := 0
  predictedGrowth := 0
  ecosystemHealthScore := 100
  lastUpdateBlock := 0
  lastUpdateTimestamp := 0

/-- The `DailyEcosystemStats` entity, fields per `initializeDailyStats`. -/
structure DailyEcosystemStats where
  date : String
  timestamp : ℤ
  protocolTransferCount : ℤ
  protocolTransferVolume : ℤ
  protocolActiveUsers : ℤ
  dexTradeCount : ℤ
  dexTradeVolume : ℤ
  dexActiveUsers : ℤ
  bridgeOperationCount : ℤ
  bridgeVolume : ℤ
  bridgeActiveUsers : ℤ
  p2pTransferCount : ℤ
  p2pTransferVolume : ℤ
  p2pActiveUsers : ℤ
  totalEcosystemTransactionCount : ℤ
  totalEcosystemVolume : ℤ
  totalActiveUsers : ℤ
  newUsers : ℤ
  returningUsers : ℤ
  averageTransactionSize : ℚ
  medianTransactionSize : ℤ
  uniqueTransactionTypes : ℤ
  composabilityScore : ℚ
  userGrowthRate : ℚ
  volumeGrowthRate : ℚ
  activityGrowthRate : ℚ
deriving DecidableEq

/-- A fresh `DailyEcosystemStats` record: `new DailyEcosystemStats(dayId)`
followed by `initializeDailyStats` (the `date` string uses the source's
simplified day-number formatting). -/
def initDailyStats (dayId : ℤ) (timestamp : ℤ) : DailyEcosystemStats where
  date := toString dayId
  timestamp := timestamp / 86400 * 86400
  protocolTransferCount := 0
  protocolTransferVolume := 0
  protocolActiveUsers := 0
  dexTradeCount := 0
  dexTradeVolume := 0
  dexActiveUsers := 0
  bridgeOperationCount := 0
  bridgeVolume := 0
  bridgeActiveUsers := 0
  p2pTransferCount := 0
  p2pTransferVolume := 0
  p2pActiveUsers := 0
  totalEcosystemTransactionCount := 0
  totalEcosystemVolume := 0
  totalActiveUsers := 0
  newUsers := 0
  returningUsers := 0
  averageTransactionSize := 0
  medianTransactionSize := 0
  uniqueTransactionTypes := 0
  composabilityScore := 0
  userGrowthRate := 0
  volumeGrowthRate := 0
  activityGrowthRate := 0

/-- Full store state touched by `createUniversalTransaction`: the
`Transaction` ledger keys, the `Account` store (total map: a missing
account behaves as `initialAccount`, matching `ensureAccount`), the
`EcosystemStats` singleton and the `DailyEcosystemStats` records keyed
by day id. -/
structure UniState where
  txIds : List (String × ℤ)
  accounts : String → Account
  ecoStats : Option EcosystemStats
  dailyStats : ℤ → Option DailyEcosystemStats

/-- `getDayId` from `src/core/universal-transaction.ts`:
`timestamp / 86400`. -/
def getDayId (timestamp : ℤ) : ℤ := timestamp / 86400

/-- `updateDailyEcosystemStats` from `src/core/universal-transaction.ts`. -/
def updateDailyEcosystemStats (s : UniState) (_category ecosystem : String)
    (value : ℤ) (timestamp : ℤ) : UniState :=
  let dayId := getDayId timestamp
  let stats :=
    match s.dailyStats dayId with
    | some st => st
    | none => initDailyStats dayId timestamp
  let st1 :=
    if ecosystem = "DEX_ECOSYSTEM" then
      { stats with
        dexTradeCount := stats.dexTradeCount + 1,
        dexTradeVolume := stats.dexTradeVolume + value }
    else if ecosystem = "BRIDGE_ECOSYSTEM" then
      { stats with
        bridgeOperationCount := stats.bridgeOperationCount + 1,
        bridgeVolume := stats.bridgeVolume + value }
    else if ecosystem = "P2P_ECOSYSTEM" then
      { stats with
        p2pTransferCount := stats.p2pTransferCount + 1,
        p2pTransferVolume := stats.p2pTransferVolume + value }
    else if ecosystem = "PROTOCOL_NATIVE" then
      { stats with
        protocolTransferCount := stats.protocolTransferCount + 1,
        protocolTransferVolume := stats.protocolTransferVolume + value }
    else stats
  let st2 :=
    { st1 with
      totalEcosystemTransactionCount :=
        st1.protocolTransferCount + st1.dexTradeCount +
        st1.bridgeOperationCount + st1.p2pTransferCount,
      totalEcosystemVolume :=
        st1.protocolTransferVolume + st1.dexTradeVolume +
        st1.bridgeVolume + st1.p2pTransferVolume }
  let st3 :=
    if 0 < st2.totalEcosystemTransactionCount then
      { st2 with
        averageTransactionSize :=
          (st2.totalEcosystemVolume : ℚ) /
            (st2.totalEcosystemTransactionCount : ℚ) }
    else st2
  { s with dailyStats := Function.update s.dailyStats dayId (some st3) }

/-- `updateEcosystemStats` from `src/core/universal-transaction.ts`:
global singleton volume rollups, then the daily rollup. -/
def updateEcosystemStats (s : UniState) (category ecosystem : String)
    (value : ℤ) (timestamp : ℤ) : UniState :=
  let stats :=
    match s.ecoStats with
    | some st => st
    | none => initEcosystemStats
  let st1 :=
    if ecosystem = "DEX_ECOSYSTEM" then
      { stats with dexTradingVolume := stats.dexTradingVolume + value }
    else if ecosystem = "BRIDGE_ECOSYSTEM" then
      { stats with bridgeVolume := stats.bridgeVolume + value }
    else if ecosystem = "P2P_ECOSYSTEM" then
      { stats with p2pVolume := stats.p2pVolume + value }
    else if ecosystem = "DEFI_ECOSYSTEM" then
      { stats with defiIntegrationVolume := stats.defiIntegrationVolume + value }
    else stats
  let st2 :=
    { st1 with
      totalEcosystemVolume :=
        st1.dexTradingVolume + st1.bridgeVolume + st1.p2pVolume +
          st1.defiIntegrationVolume,
      lastUpdateBlock := 0,
      lastUpdateTimestamp := timestamp }
  let s1 := { s with ecoStats := some st2 }
  updateDailyEcosystemStats s1 category ecosystem value timestamp

/-- `updateAccountActivity` from `src/core/universal-transaction.ts`:
sender then receiver counters, each followed by `updateActivityCounters`
and `updateUserIntelligence` and a save (the receiver is loaded after the
sender's save, as in the source). -/
def updateAccountActivity (s : UniState) (fromAddr toAddr : String)
    (value : ℤ) (category ecosystem : String) (timestamp : ℤ) : UniState :=
  let fromAccount := s.accounts fromAddr
  let f1 :=
    { fromAccount with
      totalTransactionCount := fromAccount.totalTransactionCount + 1,
      totalVolumeOut := fromAccount.totalVolumeOut + value,
      lastActiveBlock := 0,
      lastActiveTimestamp := timestamp }
  let f2 := updateActivityCounters f1 category ecosystem value
  let f3 := updateUserIntelligence f2 category ecosystem value
  let accounts1 := Function.update s.accounts fromAddr f3
  let toAccount := accounts1 toAddr
  let t1 :=
    { toAccount with
      totalTransactionCount := toAccount.totalTransactionCount + 1,
      totalVolumeIn := toAccount.totalVolumeIn + value,
      lastActiveBlock := 0,
      lastActiveTimestamp := timestamp }
  let t2 := updateActivityCounters t1 category ecosystem value
  let t3 := updateUserIntelligence t2 category ecosystem value
  { s with accounts := Function.update accounts1 toAddr t3 }

/-- `createUniversalTransaction` from `src/core/universal-transaction.ts`:
the `Transaction` record is created only when its `(hash, logIndex)` key is
new, but `updateAccountActivity` and `updateEcosystemStats` run on every
call (they sit outside the existence check). Only the ledger-key set of the
`Transaction` entity is modelled; its payload fields are written once and
never read by the aggregation. -/
def createUniversalTransaction (s : UniState) (hash : String)
    (_blockNumber blockTimestamp : ℤ) (fromAddr toAddr : String) (value : ℤ)
    (_source category ecosystem : String) (logIndex : ℤ) : UniState :=
  let txId := (hash, logIndex)
  let s1 :=
    if s.txIds.contains txId then s
    else { s with txIds := txId :: s.txIds }
  let s2 := updateAccountActivity s1 fromAddr toAddr value category ecosystem
    blockTimestamp
  updateEcosystemStats s2 category ecosystem value blockTimestamp

-- ==========================================
-- Trove manager (src/protocol/trove-manager.ts)
-- ==========================================

/-- The `Trove` entity, fields per `handleTroveUpdated` and
`updateTroveAnalytics`. Nullable fields that are unset on a fresh record
(`closedAtBlock`, `closedAtTimestamp`) are carried as plain integers
initialised to 0; they are only ever written, never read. -/
structure Trove where
  owner : String
  openedAtBlock : ℤ
  openedAtTimestamp : ℤ
  collateral : ℤ
  debt : ℤ
  stake : ℤ
  lastUpdateBlock : ℤ
  lastUpdateTimestamp : ℤ
  daysOpen : ℤ
  status : String
  closedAtBlock : ℤ
  closedAtTimestamp : ℤ
  totalBorrowed : ℤ
  totalRepaid : ℤ
  totalCollateralAdded : ℤ
  totalCollateralWithdrawn : ℤ
  borrowingFeesPaid : ℤ
  operationCount : ℤ
  averageCollateralRatio : ℚ
  lowestCollateralRatio : ℚ
  riskEvents : ℤ
  performanceScore : ℚ
  collateralRatio : ℚ
  healthScore : ℚ
  riskLevel : String
  liquidationPrice : ℚ
  safetyMargin : ℚ
  liquidationRiskScore : ℚ
  optimizationSuggestions : List String
deriving DecidableEq

/-- The fresh `Trove` created by `handleTroveUpdated` when no record exists:
the fields the source initialises explicitly, with zero/empty defaults for
the fields it leaves unset (they are overwritten before being read). -/
def newTrove (borrower : String) (blockNumber timestamp : ℤ) : Trove where
  owner := borrower
  openedAtBlock := blockNumber
  openedAtTimestamp := timestamp
  collateral := 0
  debt := 0
  stake := 0
  lastUpdateBlock := 0
  lastUpdateTimestamp := 0
  daysOpen := 0
  status := ""
  closedAtBlock := 0
  closedAtTimestamp := 0
  totalBorrowed := 0
  totalRepaid := 0
  totalCollateralAdded := 0
  totalCollateralWithdrawn := 0
  borrowingFeesPaid := 0
  operationCount := 0
  averageCollateralRatio := 0
  lowestCollateralRatio := 99999
  riskEvents := 0
  performanceScore := 100
  collateralRatio := 0
  healthScore := 0
  riskLevel := ""
  liquidationPrice := 0
  safetyMargin := 0
  liquidationRiskScore := 0
  optimizationSuggestions := []

/-- `calculateTroveHealthScore` from `src/protocol/trove-manager.ts`:
step function of the collateral ratio at 110/125/150/200. -/
def calculateTroveHealthScore (collateralRatio : ℚ) : ℚ :=
  if collateralRatio < 110 then 0
  else if collateralRatio < 125 then 25
  else if collateralRatio < 150 then 50
  else if collateralRatio < 200 then 75
  else 100

/-- `classifyTroveRiskLevel` from `src/protocol/trove-manager.ts`. -/
def classifyTroveRiskLevel (collateralRatio : ℚ) : String :=
  if collateralRatio > 200 then "VERY_LOW"
  else if collateralRatio > 150 then "LOW"
  else if collateralRatio > 125 then "MEDIUM"
  else if collateralRatio > 110 then "HIGH"
  else if collateralRatio > 105 then "VERY_HIGH"
  else "CRITICAL"

/-- `calculateTrovePerformanceScore` from `src/protocol/trove-manager.ts`:
builds the scores/weights arrays and folds them into a weighted average
(the fold mirrors the source's accumulation loop). -/
def calculateTrovePerformanceScore (trove : Trove) : ℚ :=
  let stabilityScore : ℚ :=
    if trove.lowestCollateralRatio > 150 then 100
    else trove.lowestCollateralRatio / 1.5
  let riskPenalty : ℚ := (trove.riskEvents : ℚ) * 10
  let riskScore : ℚ := clamp (100 - riskPenalty) 0 100
  let ageBonus : ℚ := clamp ((trove.daysOpen : ℚ) / 30) 0 100
  let scores : List ℚ :=
    [trove.healthScore, clamp stabilityScore 0 100, riskScore, ageBonus]
  let weights : List ℚ := [0.4, 0.3, 0.2, 0.1]
  let totalWeightedScore :=
    (scores.zip weights).foldl (fun acc p => acc + p.fst * p.snd) 0
  let totalWeight := weights.foldl (fun acc w => acc + w) 0
  if totalWeight > 0 then totalWeightedScore / totalWeight else 50

/-- `calculateLiquidationRiskScore` from `src/protocol/trove-manager.ts`:
average of three clamped risk factors. -/
def calculateLiquidationRiskScore (trove : Trove) : ℚ :=
  let crRisk : ℚ := 110 / (trove.collateralRatio + 1)
  let eventRisk : ℚ := (trove.riskEvents : ℚ) * 15
  let volatilityRisk : ℚ :=
    if 0 < trove.operationCount then
      (trove.operationCount : ℚ) / ((trove.daysOpen + 1 : ℤ) : ℚ) * 10
    else 0
  let riskFactors : List ℚ :=
    [clamp (crRisk * 100) 0 100, clamp eventRisk 0 100,
     clamp volatilityRisk 0 100]
  let totalRisk := riskFactors.foldl (fun acc r => acc + r) 0
  if riskFactors.length > 0 then totalRisk / (riskFactors.length : ℚ) else 50

/-- `generateOptimizationSuggestions` from `src/protocol/trove-manager.ts`. -/
def generateOptimizationSuggestions (trove : Trove) : List String :=
  (if trove.collateralRatio < 150 then
    ["Consider adding more collateral to improve safety margin"] else []) ++
  (if trove.collateralRatio > 300 then
    ["Consider optimizing capital efficiency by borrowing more or withdrawing collateral"]
   else []) ++
  (if trove.riskEvents > 2 then
    ["Consider maintaining higher collateral ratios to avoid future risk events"]
   else []) ++
  (if trove.operationCount > 20 ∧ trove.daysOpen < 30 then
    ["High operation frequency detected - consider longer-term position management"]
   else [])

/-- `updateTroveAnalytics` from `src/protocol/trove-manager.ts`: recompute
every derived metric from the new absolute state, and update the lifetime
counters from the deltas against the previous values. -/
def updateTroveAnalytics (trove : Trove) (previousCollateral previousDebt : ℤ)
    (_timestamp : ℤ) : Trove :=
  let cr := calculateCollateralRatio trove.collateral trove.debt
  let newLowest :=
    if cr < trove.lowestCollateralRatio then cr
    else trove.lowestCollateralRatio
  let newLiquidationPrice : ℚ :=
    if 0 < trove.debt then (trove.debt : ℚ) * 1.1 / (trove.collateral : ℚ)
    else 0
  let newSafetyMargin : ℚ := if cr > 110 then cr - 110 else 0
  let newRiskEvents :=
    if cr > 110 then trove.riskEvents else trove.riskEvents + 1
  let collateralChange := trove.collateral - previousCollateral
  let debtChange := trove.debt - previousDebt
  let newCollateralAdded :=
    if 0 < collateralChange then
      trove.totalCollateralAdded + collateralChange
    else trove.totalCollateralAdded
  let newCollateralWithdrawn :=
    if 0 < collateralChange then trove.totalCollateralWithdrawn
    else if collateralChange < 0 then
      trove.totalCollateralWithdrawn - collateralChange
    else trove.totalCollateralWithdrawn
  let newBorrowed :=
    if 0 < debtChange then trove.totalBorrowed + debtChange
    else trove.totalBorrowed
  let newRepaid :=
    if 0 < debtChange then trove.totalRepaid
    else if debtChange < 0 then trove.totalRepaid - debtChange
    else trove.totalRepaid
  let newOperationCount := trove.operationCount + 1
  let newAverageCR :=
    if 0 < newOperationCount then
      let weight : ℚ := 1 / (newOperationCount : ℚ)
      trove.averageCollateralRatio * (1 - weight) + cr * weight
    else trove.averageCollateralRatio
  let t9 : Trove :=
    { trove with
      collateralRatio := cr,
      lowestCollateralRatio := newLowest,
      healthScore := calculateTroveHealthScore cr,
      riskLevel := classifyTroveRiskLevel cr,
      liquidationPrice := newLiquidationPrice,
      safetyMargin := newSafetyMargin,
      riskEvents := newRiskEvents,
      totalCollateralAdded := newCollateralAdded,
      totalCollateralWithdrawn := newCollateralWithdrawn,
      totalBorrowed := newBorrowed,
      totalRepaid := newRepaid,
      operationCount := newOperationCount,
      averageCollateralRatio := newAverageCR }
  let t10 : Trove := { t9 with performanceScore := calculateTrovePerformanceScore t9 }
  let t11 : Trove :=
    { t10 with liquidationRiskScore := calculateLiquidationRiskScore t10 }
  { t11 with optimizationSuggestions := generateOptimizationSuggestions t11 }

/-- `classifyTroveOperationType` from `src/protocol/trove-manager.ts`. -/
def classifyTroveOperationType (collateralChange debtChange
    previousCollateral previousDebt : ℤ) : String :=
  let wasOpen := 0 < previousDebt
  let isOpen := 0 < previousDebt + debtChange
  if ¬wasOpen ∧ isOpen then "OPEN"
  else if wasOpen ∧ ¬isOpen then "CLOSE"
  else if 0 < collateralChange ∧ debtChange = 0 then "ADD_COLLATERAL"
  else if collateralChange < 0 ∧ debtChange = 0 then "WITHDRAW_COLLATERAL"
  else if collateralChange = 0 ∧ 0 < debtChange then "BORROW"
  else if collateralChange = 0 ∧ debtChange < 0 then "REPAY"
  else "ADJUST"

/-- The `TroveOperation` record appended by `createTroveOperation`. -/
structure TroveOperation where
  opId : String × ℤ
  timestamp : ℤ
  trove : String
  collateralChange : ℤ
  debtChange : ℤ
  collateralBefore : ℤ
  collateralAfter : ℤ
  debtBefore : ℤ
  debtAfter : ℤ
  blockNumber : ℤ
  transactionHash : String
  operation : String
deriving DecidableEq

/-- The `ProtocolStats` global singleton, fields per
`initializeProtocolStats`. -/
structure ProtocolStats where
  totalSupply : ℤ
  totalDebt : ℤ
  totalCollateral : ℤ
  activeTroveCount : ℤ
  totalTroveCount : ℤ
  holderCount : ℤ
  lifetimeVolume : ℤ
  lifetimeTransferCount : ℤ
  lifetimeMintCount : ℤ
  lifetimeBurnCount : ℤ
  lifetimeLiquidationCount : ℤ
  lifetimeRedemptionCount : ℤ
  totalBorrowingFees : ℤ
  totalRedemptionFees : ℤ
  lastUpdateBlock : ℤ
  lastUpdateTimestamp : ℤ
deriving DecidableEq

/-- `initializeProtocolStats`: the all-zero protocol stats record. -/
def initProtocolStats : ProtocolStats where
  totalSupply := 0
  totalDebt := 0
  totalCollateral := 0
  activeTroveCount := 0
  totalTroveCount := 0
  holderCount := 0
  lifetimeVolume := 0
  lifetimeTransferCount := 0
  lifetimeMintCount := 0
  lifetimeBurnCount := 0
  lifetimeLiquidationCount := 0
  lifetimeRedemptionCount := 0
  totalBorrowingFees := 0
  totalRedemptionFees := 0
  lastUpdateBlock := 0
  lastUpdateTimestamp := 0

/-- The store state touched by the trove-manager handlers: the `Trove`
records keyed by borrower, the appended `TroveOperation` records, and the
`ProtocolStats` singleton. (`createUniversalTransaction`, called first by
the handlers, touches only `Transaction`/`Account`/`EcosystemStats`
records, which are disjoint from this state.) -/
structure TroveState where
  troves : String → Option Trove
  troveOps : List TroveOperation
  protocolStats : Option ProtocolStats

/-- A `TroveUpdated` event payload. -/
structure TroveUpdatedEv where
  borrower : String
  coll : ℤ
  debt : ℤ
  stake : ℤ
  blockNumber : ℤ
  timestamp : ℤ
  hash : String
  logIndex : ℤ
deriving DecidableEq

/-- `updateProtocolStatsForTrove` from `src/protocol/trove-manager.ts`:
returns early when the stats singleton is missing; adjusts
`activeTroveCount` only on status transitions; applies debt/collateral
deltas. -/
def updateProtocolStatsForTrove (s : TroveState) (trove : Trove)
    (previousStatus : String) (previousDebt previousCollateral : ℤ)
    (isNewTrove : Bool) (blockNumber timestamp : ℤ) : TroveState :=
  match s.protocolStats with
  | none => s
  | some stats =>
    let st1 :=
      if isNewTrove then
        { stats with totalTroveCount := stats.totalTroveCount + 1 }
      else stats
    let st2 :=
      if previousStatus ≠ trove.status then
        if trove.status = "ACTIVE" ∧ previousStatus ≠ "ACTIVE" then
          { st1 with activeTroveCount := st1.activeTroveCount + 1 }
        else if previousStatus = "ACTIVE" ∧ trove.status ≠ "ACTIVE" then
          { st1 with activeTroveCount := st1.activeTroveCount - 1 }
        else st1
      else st1
    let debtChange := trove.debt - previousDebt
    let collateralChange := trove.collateral - previousCollateral
    let st3 :=
      { st2 with
        totalDebt := st2.totalDebt + debtChange,
        totalCollateral := st2.totalCollateral + collateralChange,
        lastUpdateBlock := blockNumber,
        lastUpdateTimestamp := timestamp }
    { s with protocolStats := some st3 }

/-- `updateProtocolStatsForLiquidation` from `src/protocol/trove-manager.ts`:
returns early when the stats singleton is missing. -/
def updateProtocolStatsForLiquidation (s : TroveState)
    (liquidatedDebt liquidatedCollateral : ℤ) (timestamp : ℤ) : TroveState :=
  match s.protocolStats with
  | none => s
  | some stats =>
    { s with
      protocolStats := some
        { stats with
          lifetimeLiquidationCount := stats.lifetimeLiquidationCount + 1,
          totalDebt := stats.totalDebt - liquidatedDebt,
          totalCollateral := stats.totalCollateral - liquidatedCollateral,
          lastUpdateTimestamp := timestamp } }

/-- `createTroveOperation` from `src/protocol/trove-manager.ts`. -/
def createTroveOperation (ev : TroveUpdatedEv) (trove : Trove)
    (previousCollateral previousDebt : ℤ) : TroveOperation where
  opId := (ev.hash, ev.logIndex)
  timestamp := ev.timestamp
  trove := trove.owner
  collateralChange := ev.coll - previousCollateral
  debtChange := ev.debt - previousDebt
  collateralBefore := previousCollateral
  collateralAfter := ev.coll
  debtBefore := previousDebt
  debtAfter := ev.debt
  blockNumber := ev.blockNumber
  transactionHash := ev.hash
  operation := classifyTroveOperationType (ev.coll - previousCollateral)
    (ev.debt - previousDebt) previousCollateral previousDebt

/-- `handleTroveUpdated` from `src/protocol/trove-manager.ts`, projected to
the trove-manager state. A missing previous record yields previous values
`collateral = 0`, `debt = 0` and previous status `"ACTIVE"` (the source's
`trove.status || "ACTIVE"` fallback: the status field of a freshly created
record is unset). -/
def handleTroveUpdated (s : TroveState) (ev : TroveUpdatedEv) : TroveState :=
  let trove0 := s.troves ev.borrower
  let isNewTrove := trove0.isNone
  let trove1 :=
    match trove0 with
    | some t => t
    | none => newTrove ev.borrower ev.blockNumber ev.timestamp
  let previousCollateral := match trove0 with | some t => t.collateral | none => 0
  let previousDebt := match trove0 with | some t => t.debt | none => 0
  let previousStatus := match trove0 with | some t => t.status | none => "ACTIVE"
  let trove2 :=
    { trove1 with
      collateral := ev.coll,
      debt := ev.debt,
      stake := ev.stake,
      lastUpdateBlock := ev.blockNumber,
      lastUpdateTimestamp := ev.timestamp,
      daysOpen := (ev.timestamp - trove1.openedAtTimestamp) / 86400 }
  let trove3 :=
    if ev.debt = 0 then
      { trove2 with
        status := "CLOSED_BY_OWNER",
        closedAtBlock := ev.blockNumber,
        closedAtTimestamp := ev.timestamp }
    else { trove2 with status := "ACTIVE" }
  let trove4 := updateTroveAnalytics trove3 previousCollateral previousDebt
    ev.timestamp
  let op := createTroveOperation ev trove4 previousCollateral previousDebt
  let s1 :=
    { s with
      troves := Function.update s.troves ev.borrower (some trove4),
      troveOps := op :: s.troveOps }
  updateProtocolStatsForTrove s1 trove4 previousStatus previousDebt
    previousCollateral isNewTrove ev.blockNumber ev.timestamp

-- ==========================================
-- Market conditions (price-feed handler)
-- ==========================================

/-- The `MarketCondition` daily record. -/
structure MarketCondition where
  date : String
  timestamp : ℤ
  openPrice : ℚ
  highPrice : ℚ
  lowPrice : ℚ
  closePrice : ℚ
  priceUpdatesCount : ℤ
  volatilityScore : ℚ
  trendDirection : String
  lastUpdateTimestamp : ℤ
deriving DecidableEq

/-- `updateMarketConditions` from the price-feed handler: create the day's
record on first sight (open = high = low = current, count 1), otherwise
fold the new price into high/low and bump the count; always set close
price, volatility and trend. The day's record slot is passed explicitly
(the handler keys it by `timestamp / 86400`). -/
def updateMarketConditions (currentPrice : ℚ) (timestamp : ℤ)
    (slot : Option MarketCondition) : MarketCondition :=
  let mc1 :=
    match slot with
    | none =>
      { date := toString (timestamp / 86400),
        timestamp := timestamp,
        openPrice := currentPrice,
        highPrice := currentPrice,
        lowPrice := currentPrice,
        closePrice := 0,
        priceUpdatesCount := 1,
        volatilityScore := 0,
        trendDirection := "NEUTRAL",
        lastUpdateTimestamp := 0 : MarketCondition }
    | some mc =>
      let newHigh := if currentPrice > mc.highPrice then currentPrice
        else mc.highPrice
      let newLow := if currentPrice < mc.lowPrice then currentPrice
        else mc.lowPrice
      { mc with
        highPrice := newHigh,
        lowPrice := newLow,
        priceUpdatesCount := mc.priceUpdatesCount + 1 }
  let mc2 :=
    { mc1 with closePrice := currentPrice, lastUpdateTimestamp := timestamp }
  if mc2.openPrice > 0 then
    let dailyRange := mc2.highPrice - mc2.lowPrice
    let volatility := dailyRange / mc2.openPrice * 100
    let changePercent := (currentPrice - mc2.openPrice) / mc2.openPrice * 100
    let trend :=
      if changePercent > 2 then "BULLISH"
      else if changePercent < -2 then "BEARISH"
      else "NEUTRAL"
    { mc2 with volatilityScore := volatility, trendDirection := trend }
  else mc2

/-- One calendar day's sequence of price updates, folded through
`updateMarketConditions` starting from no record (the lazy-create load). -/
def processDay (updates : List (ℚ × ℤ)) : Option MarketCondition :=
  updates.foldl (fun slot p => some (updateMarketConditions p.fst p.snd slot))
    none

-- ==========================================
-- Spec-side reference definitions and concrete fixtures
-- ==========================================

/-- The DEX-activity ratio `dexRatio` computed by `updateUserIntelligence`
(zero while the account has no transactions). -/
def dexRatioOf (a : Account) : ℚ :=
  if 0 < a.totalTransactionCount then
    (a.dexActivityCount : ℚ) / (a.totalTransactionCount : ℚ)
  else 0

/-- The protocol-activity ratio `protocolRatio` computed by
`updateUserIntelligence`. -/
def protocolRatioOf (a : Account) : ℚ :=
  if 0 < a.totalTransactionCount then
    (a.protocolOperationCount : ℚ) / (a.totalTransactionCount : ℚ)
  else 0

/-- Modelled from the spec (claim C5 wording), for comparison with
`updateUserIntelligence`: the claimed rule order
DEX ratio, bridge count, DeFi count, protocol ratio, power user,
default retail. -/
def claimUserType (a : Account) : String :=
  if dexRatioOf a > 0.6 then "DEX_TRADER"
  else if a.bridgeActivityCount > 5 then "BRIDGE_USER"
  else if a.defiIntegrationCount > 10 then "DEFI_USER"
  else if protocolRatioOf a > 0.8 then "PROTOCOL_NATIVE"
  else if a.totalTransactionCount > 100 then "POWER_USER"
  else "RETAIL_USER"

/-- Modelled from the spec (claim C4 wording), for comparison with
`calculateTrovePerformanceScore`: weighted average with weights
0.4/0.3/0.2/0.1, riskPenalty = max(0, 100 - riskEvents*10) and
ageBonus = min(100, daysOpen/30*100), divided by the total weight. -/
def claimTrovePerformanceScore (health stability : ℚ)
    (riskEvents daysOpen : ℤ) : ℚ :=
  let riskPenalty : ℚ := max 0 (100 - (riskEvents : ℚ) * 10)
  let ageBonus : ℚ := min 100 ((daysOpen : ℚ) / 30 * 100)
  (health * 0.4 + stability * 0.3 + riskPenalty * 0.2 + ageBonus * 0.1)
    / (0.4 + 0.3 + 0.2 + 0.1)

/-- A concrete trove state: perfect health band, lowest collateral ratio
200, no risk events, open for 30 days. -/
def troveThirtyDays : Trove :=
  { newTrove "0xb1" 0 0 with
    healthScore := 100,
    lowestCollateralRatio := 200,
    daysOpen := 30 }

/-- A concrete trove state whose four performance sub-scores all evaluate
to 100 under the source formulas (3000 days open). -/
def troveAllHundred : Trove :=
  { newTrove "0xb1" 0 0 with
    healthScore := 100,
    lowestCollateralRatio := 200,
    daysOpen := 3000 }

/-- A concrete account with a protocol-activity ratio of 0.9 and a bridge
activity count of 6 (both the protocol-ratio rule and the bridge rule
match). -/
def accountProtoBridge : Account :=
  { initialAccount with
    totalTransactionCount := 10,
    protocolOperationCount := 9,
    bridgeActivityCount := 6 }

/-- The empty store state: no transactions, no accounts (the total map
defaults to the lazily-created `initialAccount`), no stats records. -/
def emptyUniState : UniState where
  txIds := []
  accounts := fun _ => initialAccount
  ecoStats := none
  dailyStats := fun _ => none

/-- One delivery of a concrete transfer event (hash `0xaa`, log index 0,
100 units from `0x01` to `0x02`). -/
def processedOnce : UniState :=
  createUniversalTransaction emptyUniState "0xaa" 1 1000000 "0x01" "0x02"
    100 "CONTRACT_EVENT" "TRANSFER" "PROTOCOL_NATIVE" 0

/-- A second delivery of the identical event descriptor (same transaction
hash and log index). -/
def processedTwice : UniState :=
  createUniversalTransaction processedOnce "0xaa" 1 1000000 "0x01" "0x02"
    100 "CONTRACT_EVENT" "TRANSFER" "PROTOCOL_NATIVE" 0

/-- A trove-manager store with an existing all-zero `ProtocolStats`
singleton and no troves. -/
def troveStateWithStats : TroveState where
  troves := fun _ => none
  troveOps := []
  protocolStats := some initProtocolStats

/-- A trove-manager store with no `ProtocolStats` singleton. -/
def troveStateNoStats : TroveState where
  troves := fun _ => none
  troveOps := []
  protocolStats := none

/-- First `TroveUpdated` event for borrower `0xb1`: debt 0 to 500. -/
def openTroveEv : TroveUpdatedEv where
  borrower := "0xb1"
  coll := 1000
  debt := 500
  stake := 0
  blockNumber := 1
  timestamp := 8640000
  hash := "0xh1"
  logIndex := 0

/-- Same-status adjustment of the trove: debt 500 to 600. -/
def adjustTroveEv : TroveUpdatedEv where
  borrower := "0xb1"
  coll := 1000
  debt := 600
  stake := 0
  blockNumber := 2
  timestamp := 8650000
  hash := "0xh2"
  logIndex := 0

/-- Closing event for the trove: debt 600 to 0. -/
def closeTroveEv : TroveUpdatedEv where
  borrower := "0xb1"
  coll := 1000
  debt := 0
  stake := 0
  blockNumber := 3
  timestamp := 8660000
  hash := "0xh3"
  logIndex := 0

/-- State after opening the trove (first event, no prior record). -/
def stateAfterOpen : TroveState :=
  handleTroveUpdated troveStateWithStats openTroveEv

/-- State after the same-status debt adjustment. -/
def stateAfterAdjust : TroveState :=
  handleTroveUpdated stateAfterOpen adjustTroveEv

/-- State after closing the trove (debt back to zero). -/
def stateAfterClose : TroveState :=
  handleTroveUpdated stateAfterAdjust closeTroveEv

/-- Running invariant for one day of `MarketCondition` updates: open price,
update count, and high/low being the max/min of the observed prices. -/
def MCInv (prices : List ℚ) (openP : ℚ) (n : ℤ) (mc : MarketCondition) :
    Prop :=
  mc.openPrice = openP ∧ mc.priceUpdatesCount = n ∧
  mc.highPrice ∈ prices ∧ (∀ q ∈ prices, q ≤ mc.highPrice) ∧
  mc.lowPrice ∈ prices ∧ (∀ q ∈ prices, mc.lowPrice ≤ q)

-- ==========================================
-- Theorems
-- ==========================================

/-- Helper: clamping to [0, 100] from above is a max with 0 when the value
is at most 100. -/
theorem clamp_eq_max (x : ℚ) (h : x ≤ 100) : clamp x 0 100 = max 0 x := by
  unfold clamp
  split_ifs with h1 h2
  · rw [max_eq_left (le_of_lt h1)]
  · linarith
  · rw [max_eq_right (not_lt.1 h1)]

/-- Helper: clamping to [0, 100] from below is a min with 100 when the
value is nonnegative. -/
theorem clamp_eq_min (x : ℚ) (h : 0 ≤ x) : clamp x 0 100 = min 100 x := by
  unfold clamp
  split_ifs with h1 h2
  · linarith
  · rw [min_eq_left (le_of_lt h2)]
  · rw [min_eq_right (not_lt.1 h2)]

/-- C3: `calculateCollateralRatio` is total: with zero debt it returns the
sentinel 99999 without dividing, and otherwise it returns
`collateral / debt * 100`. Its codomain is `ℚ`, so no `NaN`, infinity or
exception can arise. -/
theorem calculateCollateralRatio_total (collateral debt : ℤ) :
    (debt = 0 → calculateCollateralRatio collateral debt = 99999) ∧
    (debt ≠ 0 →
      calculateCollateralRatio collateral debt
        = (collateral : ℚ) / (debt : ℚ) * 100) := by
  constructor <;> intro h <;> simp [calculateCollateralRatio, h]

/-- Witness for C3 at collateral 1000 with debt 0 and with debt 2. -/
theorem calculateCollateralRatio_total_witness :
    calculateCollateralRatio 1000 0 = 99999 ∧
    calculateCollateralRatio 1000 2 = 50000 := by
  refine ⟨(calculateCollateralRatio_total 1000 0).1 rfl, ?_⟩
  have h := (calculateCollateralRatio_total 1000 2).2 (by decide)
  rw [h]; norm_num

/-- C6: the amount tiers use strict less-than at every boundary, so an
amount exactly equal to a boundary threshold falls into the next tier up;
in particular 100 whole USDFC (the SMALL/MEDIUM boundary) is `MEDIUM`, and
every amount at least the MICRO threshold and strictly below that boundary
is `SMALL`. -/
theorem getTransferAmountTier_boundaries :
    getTransferAmountTier DUST_THRESHOLD = "MICRO" ∧
    getTransferAmountTier MICRO_THRESHOLD = "SMALL" ∧
    getTransferAmountTier (100 * 10 ^ 18) = "MEDIUM" ∧
    getTransferAmountTier MEDIUM_THRESHOLD = "LARGE" ∧
    getTransferAmountTier LARGE_THRESHOLD = "WHALE" ∧
    getTransferAmountTier WHALE_THRESHOLD = "INSTITUTIONAL" ∧
    (∀ amount : ℤ, MICRO_THRESHOLD ≤ amount → amount < 100 * 10 ^ 18 →
      getTransferAmountTier amount = "SMALL") := by
  refine ⟨by decide, by decide, by decide, by decide, by decide, by decide,
    ?_⟩
  intro amount h1 h2
  unfold getTransferAmountTier
  unfold DUST_THRESHOLD MICRO_THRESHOLD SMALL_THRESHOLD
  unfold MICRO_THRESHOLD at h1
  split_ifs <;> first | rfl | omega

/-- Witness for C6: 50 whole USDFC sits strictly inside the SMALL band. -/
theorem getTransferAmountTier_boundaries_witness :
    getTransferAmountTier (50 * 10 ^ 18) = "SMALL" :=
  getTransferAmountTier_boundaries.2.2.2.2.2.2 (50 * 10 ^ 18)
    (by decide) (by decide)

/-- C8: a `Transfer` between two non-zero addresses moves `value` from the
sender's `usdfcBalance` to the receiver's, so over any set of accounts
containing both parties the balance deltas sum to zero. -/
theorem updateAccountBalances_conservation (fromAddr toAddr : String)
    (value : ℤ) (bal : String → ℤ) (hf : fromAddr ≠ zeroAddr)
    (ht : toAddr ≠ zeroAddr) (S : Finset String) (hfS : fromAddr ∈ S)
    (htS : toAddr ∈ S) :
    ∑ a in S, (updateAccountBalances fromAddr toAddr value bal a - bal a)
      = 0 := by
  have hpt : ∀ a, updateAccountBalances fromAddr toAddr value bal a - bal a
      = (if a = toAddr then value else 0)
        - (if a = fromAddr then value else 0) := by
    intro a
    unfold updateAccountBalances
    simp only [if_neg hf, if_neg ht, Function.update_apply]
    split_ifs <;> simp_all
  rw [Finset.sum_congr rfl (fun a _ => hpt a), Finset.sum_sub_distrib,
    Finset.sum_ite_eq' S toAddr (fun _ => value),
    Finset.sum_ite_eq' S fromAddr (fun _ => value),
    if_pos htS, if_pos hfS, sub_self]

/-- Witness for C8: a transfer of 7 between two concrete accounts. -/
theorem updateAccountBalances_conservation_witness :
    ∑ a in ({"0xa1", "0xa2"} : Finset String),
      (updateAccountBalances "0xa1" "0xa2" 7 (fun _ => 100) a
        - (fun _ => (100 : ℤ)) a) = 0 :=
  updateAccountBalances_conservation "0xa1" "0xa2" 7 (fun _ => 100)
    (by decide) (by decide) {"0xa1", "0xa2"} (by decide) (by decide)

/-- C7: a non-mint, non-burn, non-trove-manager transfer touching the
stability pool classifies by direction: sender = pool gives
`STABILITY_WITHDRAWAL`, receiver = pool gives `STABILITY_DEPOSIT`. -/
theorem stabilityPool_directional :
    (∀ (toAddr : String) (value : ℤ), toAddr ≠ zeroAddr →
      lookupRole toAddr ≠ some "TROVE_MANAGER" →
      getConfigurableTransferType stabilityPoolAddr toAddr value
        = "STABILITY_WITHDRAWAL") ∧
    (∀ (fromAddr : String) (value : ℤ), fromAddr ≠ zeroAddr →
      lookupRole fromAddr ≠ some "TROVE_MANAGER" →
      lookupRole fromAddr ≠ some "STABILITY_POOL" →
      getConfigurableTransferType fromAddr stabilityPoolAddr value
        = "STABILITY_DEPOSIT") := by
  have hpool : lookupRole stabilityPoolAddr = some "STABILITY_POOL" := by
    decide
  have hpz : stabilityPoolAddr ≠ zeroAddr := by decide
  constructor
  · intro toAddr value hz ht
    simp [getConfigurableTransferType, getProtocolOperationType,
      isProtocolAddress, hpool, hpz, hz, ht]
  · intro fromAddr value hz ht hp
    simp [getConfigurableTransferType, getProtocolOperationType,
      isProtocolAddress, hpool, hpz, hz, ht, hp]

/-- Witness for C7: the stability pool against a plain user address. -/
theorem stabilityPool_directional_witness :
    getConfigurableTransferType stabilityPoolAddr "0xab" 5
      = "STABILITY_WITHDRAWAL" ∧
    getConfigurableTransferType "0xab" stabilityPoolAddr 5
      = "STABILITY_DEPOSIT" :=
  ⟨stabilityPool_directional.1 "0xab" 5 (by decide) (by decide),
   stabilityPool_directional.2 "0xab" 5 (by decide) (by decide) (by decide)⟩

/-- Field behaviour of `updateMarketConditions` on an existing record. -/
theorem updateMC_some_fields (p : ℚ) (t : ℤ) (mc : MarketCondition) :
    (updateMarketConditions p t (some mc)).openPrice = mc.openPrice ∧
    (updateMarketConditions p t (some mc)).priceUpdatesCount
      = mc.priceUpdatesCount + 1 ∧
    (updateMarketConditions p t (some mc)).highPrice
      = (if p > mc.highPrice then p else mc.highPrice) ∧
    (updateMarketConditions p t (some mc)).lowPrice
      = (if p < mc.lowPrice then p else mc.lowPrice) := by
  simp only [updateMarketConditions]
  split_ifs <;> simp_all

/-- Field behaviour of `updateMarketConditions` when the record is created. -/
theorem updateMC_none_fields (p : ℚ) (t : ℤ) :
    (updateMarketConditions p t none).openPrice = p ∧
    (updateMarketConditions p t none).priceUpdatesCount = 1 ∧
    (updateMarketConditions p t none).highPrice = p ∧
    (updateMarketConditions p t none).lowPrice = p := by
  simp only [updateMarketConditions]
  split_ifs <;> simp_all

/-- One update preserves the daily invariant, extending the price list. -/
theorem MCInv_step (prices : List ℚ) (openP : ℚ) (n : ℤ)
    (mc : MarketCondition) (p : ℚ) (t : ℤ) (h : MCInv prices openP n mc) :
    MCInv (prices ++ [p]) openP (n + 1)
      (updateMarketConditions p t (some mc)) := by
  obtain ⟨h1, h2, h3, h4, h5, h6⟩ := h
  obtain ⟨f1, f2, f3, f4⟩ := updateMC_some_fields p t mc
  refine ⟨by rw [f1, h1], by rw [f2, h2], ?_, ?_, ?_, ?_⟩
  · rw [f3]; split_ifs with hc
    · simp
    · exact List.mem_append.2 (Or.inl h3)
  · intro q hq
    rw [f3]
    rcases List.mem_append.1 hq with hq | hq
    · have := h4 q hq
      split_ifs with hc <;> linarith
    · rw [List.mem_singleton.1 hq]
      split_ifs with hc <;> linarith
  · rw [f4]; split_ifs with hc
    · simp
    · exact List.mem_append.2 (Or.inl h5)
  · intro q hq
    rw [f4]
    rcases List.mem_append.1 hq with hq | hq
    · have := h6 q hq
      split_ifs with hc <;> linarith
    · rw [List.mem_singleton.1 hq]
      split_ifs with hc <;> linarith

/-- Folding further same-day updates preserves the daily invariant. -/
theorem MCInv_fold (rest : List (ℚ × ℤ)) :
    ∀ (prices : List ℚ) (openP : ℚ) (n : ℤ) (mc : MarketCondition),
    MCInv prices openP n mc →
    ∃ mc2, rest.foldl
        (fun slot q => some (updateMarketConditions q.fst q.snd slot))
        (some mc) = some mc2 ∧
      MCInv (prices ++ rest.map Prod.fst) openP (n + rest.length) mc2 := by
  induction rest with
  | nil =>
    intro prices openP n mc h
    exact ⟨mc, rfl, by simpa using h⟩
  | cons u rest ih =>
    intro prices openP n mc h
    have hstep := MCInv_step prices openP n mc u.fst u.snd h
    obtain ⟨mc2, hfold, hinv⟩ := ih (prices ++ [u.fst]) openP (n + 1)
      (updateMarketConditions u.fst u.snd (some mc)) hstep
    refine ⟨mc2, hfold, ?_⟩
    have harith : (n + 1) + (rest.length : ℤ)
        = n + ((u :: rest).length : ℤ) := by
      simp only [List.length_cons]
      push_cast
      ring
    have hlist : (prices ++ [u.fst]) ++ rest.map Prod.fst
        = prices ++ (u :: rest).map Prod.fst := by
      simp
    rw [harith, hlist] at hinv
    exact hinv

/-- C10: after any nonempty day of price updates, the `MarketCondition`
record exists with `openPrice` equal to the first price of the day (later
updates never modify it), `priceUpdatesCount` equal to the number of
updates, `highPrice` the maximum and `lowPrice` the minimum of all prices
observed that day, hence `lowPrice ≤ highPrice`. -/
theorem marketCondition_daily_ohlc (u : ℚ × ℤ) (rest : List (ℚ × ℤ)) :
    ∃ mc : MarketCondition,
      processDay (u :: rest) = some mc ∧
      mc.openPrice = u.fst ∧
      mc.priceUpdatesCount = 1 + (rest.length : ℤ) ∧
      mc.highPrice ∈ u.fst :: rest.map Prod.fst ∧
      (∀ q ∈ u.fst :: rest.map Prod.fst, q ≤ mc.highPrice) ∧
      mc.lowPrice ∈ u.fst :: rest.map Prod.fst ∧
      (∀ q ∈ u.fst :: rest.map Prod.fst, mc.lowPrice ≤ q) ∧
      mc.lowPrice ≤ mc.highPrice := by
  obtain ⟨f1, f2, f3, f4⟩ := updateMC_none_fields u.fst u.snd
  have hbase : MCInv [u.fst] u.fst 1 (updateMarketConditions u.fst u.snd none) := by
    refine ⟨f1, f2, ?_, ?_, ?_, ?_⟩
    · rw [f3]; simp
    · intro q hq
      rw [List.mem_singleton.1 hq, f3]
    · rw [f4]; simp
    · intro q hq
      rw [List.mem_singleton.1 hq, f4]
  obtain ⟨mc2, hfold, hinv⟩ := MCInv_fold rest [u.fst] u.fst 1
    (updateMarketConditions u.fst u.snd none) hbase
  obtain ⟨h1, h2, h3, h4, h5, h6⟩ := hinv
  have hproc : processDay (u :: rest) = some mc2 := by
    simpa [processDay] using hfold
  have hlist : ([u.fst] ++ rest.map Prod.fst) = u.fst :: rest.map Prod.fst := by
    simp
  rw [hlist] at h3 h4 h5 h6
  exact ⟨mc2, hproc, h1, h2, h3, h4, h5, h6, h6 _ h3⟩

/-- Witness for C10: a concrete three-update day (prices 5, 7, 3). -/
theorem marketCondition_daily_ohlc_witness :
    ∃ mc : MarketCondition,
      processDay [((5 : ℚ), (0 : ℤ)), (7, 50), (3, 100)] = some mc ∧
      mc.openPrice = 5 ∧
      mc.priceUpdatesCount = 1 + (([((7 : ℚ), (50 : ℤ)), (3, 100)]).length : ℤ) ∧
      mc.highPrice ∈ [(5 : ℚ), 7, 3] ∧
      (∀ q ∈ [(5 : ℚ), 7, 3], q ≤ mc.highPrice) ∧
      mc.lowPrice ∈ [(5 : ℚ), 7, 3] ∧
      (∀ q ∈ [(5 : ℚ), 7, 3], mc.lowPrice ≤ q) ∧
      mc.lowPrice ≤ mc.highPrice :=
  marketCondition_daily_ohlc (5, 0) [(7, 50), (3, 100)]

/-- C4 counterexample: for a trove open 30 days with all other sub-scores
perfect, the source score is 90.1 (its age bonus is `clamp(daysOpen/30)`,
worth 1 here), while the claimed formula (ageBonus =
min(100, daysOpen/30*100), worth 100 here) yields 100, so the claim as
stated is false on the code. -/
theorem trovePerformance_claim_cex :
    calculateTrovePerformanceScore troveThirtyDays = 901 / 10 ∧
    claimTrovePerformanceScore troveThirtyDays.healthScore 100
      troveThirtyDays.riskEvents troveThirtyDays.daysOpen = 100 ∧
    calculateTrovePerformanceScore troveThirtyDays ≠
      claimTrovePerformanceScore troveThirtyDays.healthScore 100
        troveThirtyDays.riskEvents troveThirtyDays.daysOpen := by
  have h1 : calculateTrovePerformanceScore troveThirtyDays = 901 / 10 := by
    norm_num [calculateTrovePerformanceScore, troveThirtyDays, newTrove,
      clamp, List.zip, List.zipWith, List.foldl]
  have h2 : claimTrovePerformanceScore troveThirtyDays.healthScore 100
      troveThirtyDays.riskEvents troveThirtyDays.daysOpen = 100 := by
    norm_num [claimTrovePerformanceScore, troveThirtyDays, newTrove,
      max_def, min_def]
  refine ⟨h1, h2, ?_⟩
  rw [h1, h2]
  norm_num

/-- C4 (amended): the trove performance score is the weighted average of
the four sub-scores with weights 0.4/0.3/0.2/0.1 divided by the total
weight, where riskPenalty = max(0, 100 - riskEvents*10) and ageBonus =
min(100, daysOpen/30) (the source divides daysOpen by 30 without scaling
by 100); when the four sub-scores all equal 100 the result is 100. -/
theorem trovePerformance_amended (t : Trove) (hre : 0 ≤ t.riskEvents)
    (hd : 0 ≤ t.daysOpen) :
    calculateTrovePerformanceScore t
      = (t.healthScore * 0.4
          + clamp (if t.lowestCollateralRatio > 150 then 100
              else t.lowestCollateralRatio / 1.5) 0 100 * 0.3
          + max 0 (100 - (t.riskEvents : ℚ) * 10) * 0.2
          + min 100 ((t.daysOpen : ℚ) / 30) * 0.1)
        / (0.4 + 0.3 + 0.2 + 0.1) ∧
    (t.healthScore = 100 → t.lowestCollateralRatio > 150 →
      t.riskEvents = 0 → (3000 : ℤ) ≤ t.daysOpen →
      calculateTrovePerformanceScore t = 100) := by
  have hre0 : (0 : ℚ) ≤ (t.riskEvents : ℚ) := by exact_mod_cast hre
  have hd0 : (0 : ℚ) ≤ (t.daysOpen : ℚ) := by exact_mod_cast hd
  have hrisk : clamp (100 - (t.riskEvents : ℚ) * 10) 0 100
      = max 0 (100 - (t.riskEvents : ℚ) * 10) :=
    clamp_eq_max _ (by nlinarith)
  have hage : clamp ((t.daysOpen : ℚ) / 30) 0 100
      = min 100 ((t.daysOpen : ℚ) / 30) :=
    clamp_eq_min _ (by positivity)
  have hmain : calculateTrovePerformanceScore t
      = (t.healthScore * 0.4
          + clamp (if t.lowestCollateralRatio > 150 then 100
              else t.lowestCollateralRatio / 1.5) 0 100 * 0.3
          + max 0 (100 - (t.riskEvents : ℚ) * 10) * 0.2
          + min 100 ((t.daysOpen : ℚ) / 30) * 0.1)
        / (0.4 + 0.3 + 0.2 + 0.1) := by
    simp only [calculateTrovePerformanceScore, List.zip, List.zipWith,
      List.foldl]
    rw [if_pos (by norm_num), hrisk, hage]
    ring_nf
  refine ⟨hmain, ?_⟩
  intro hh hlow hre00 hd00
  rw [hmain, if_pos hlow, hh, hre00]
  have h30 : (100 : ℚ) ≤ (t.daysOpen : ℚ) / 30 := by
    have : (3000 : ℚ) ≤ (t.daysOpen : ℚ) := by exact_mod_cast hd00
    linarith
  rw [min_eq_left h30]
  norm_num [clamp]

/-- Witness for C4 (amended): a trove whose four sub-scores are all 100
scores exactly 100. -/
theorem trovePerformance_amended_witness :
    (0 : ℤ) ≤ troveAllHundred.riskEvents ∧
    (0 : ℤ) ≤ troveAllHundred.daysOpen ∧
    calculateTrovePerformanceScore troveAllHundred = 100 :=
  ⟨by decide, by decide,
    (trovePerformance_amended troveAllHundred (by decide) (by decide)).2
      (by decide) (by decide) (by decide) (by decide)⟩

/-- C5 counterexample: on an account whose protocol ratio is 0.9 and whose
bridge activity count is 6, the source assigns `PROTOCOL_NATIVE` (its
protocol-ratio rule precedes the bridge rule), while the claimed rule
order assigns `BRIDGE_USER`, so the claim as stated is false on the
code. -/
theorem userType_claim_cex :
    (updateUserIntelligence accountProtoBridge "TRANSFER" "PROTOCOL_NATIVE"
      1).userType = "PROTOCOL_NATIVE" ∧
    claimUserType accountProtoBridge = "BRIDGE_USER" ∧
    (updateUserIntelligence accountProtoBridge "TRANSFER" "PROTOCOL_NATIVE"
      1).userType ≠ claimUserType accountProtoBridge := by
  have h1 : (updateUserIntelligence accountProtoBridge "TRANSFER"
      "PROTOCOL_NATIVE" 1).userType = "PROTOCOL_NATIVE" := by
    norm_num [updateUserIntelligence, accountProtoBridge, initialAccount]
  have h2 : claimUserType accountProtoBridge = "BRIDGE_USER" := by
    norm_num [claimUserType, dexRatioOf, protocolRatioOf,
      accountProtoBridge, initialAccount]
  refine ⟨h1, h2, ?_⟩
  rw [h1, h2]
  simp

/-- C5 (amended): starting from the default `RETAIL_USER` classification,
`updateUserIntelligence` evaluates its user-type rules in the fixed
priority order DEX ratio > 0.6, protocol ratio > 0.8, total activity >
100, bridge activity > 5, DeFi activity > 10, otherwise the stored type is
kept — first match wins: each label is produced exactly when its rule is
the first to match. -/
theorem updateUserIntelligence_priority (a : Account) (c e : String)
    (v : ℤ) (hu : a.userType = "RETAIL_USER") :
    ((updateUserIntelligence a c e v).userType = "DEX_TRADER"
      ↔ dexRatioOf a > 0.6) ∧
    ((updateUserIntelligence a c e v).userType = "PROTOCOL_NATIVE"
      ↔ ¬(dexRatioOf a > 0.6) ∧ protocolRatioOf a > 0.8) ∧
    ((updateUserIntelligence a c e v).userType = "POWER_USER"
      ↔ ¬(dexRatioOf a > 0.6) ∧ ¬(protocolRatioOf a > 0.8) ∧
        a.totalTransactionCount > 100) ∧
    ((updateUserIntelligence a c e v).userType = "BRIDGE_USER"
      ↔ ¬(dexRatioOf a > 0.6) ∧ ¬(protocolRatioOf a > 0.8) ∧
        ¬(a.totalTransactionCount > 100) ∧ a.bridgeActivityCount > 5) ∧
    ((updateUserIntelligence a c e v).userType = "DEFI_USER"
      ↔ ¬(dexRatioOf a > 0.6) ∧ ¬(protocolRatioOf a > 0.8) ∧
        ¬(a.totalTransactionCount > 100) ∧ ¬(a.bridgeActivityCount > 5) ∧
        a.defiIntegrationCount > 10) ∧
    ((updateUserIntelligence a c e v).userType = "RETAIL_USER"
      ↔ ¬(dexRatioOf a > 0.6) ∧ ¬(protocolRatioOf a > 0.8) ∧
        ¬(a.totalTransactionCount > 100) ∧ ¬(a.bridgeActivityCount > 5) ∧
        ¬(a.defiIntegrationCount > 10)) := by
  simp only [updateUserIntelligence, dexRatioOf, protocolRatioOf, hu]
  split_ifs <;> simp_all

/-- Witness for C5 (amended): a fresh retail account with protocol ratio
0.9 classifies as `PROTOCOL_NATIVE`. -/
theorem updateUserIntelligence_priority_witness :
    accountProtoBridge.userType = "RETAIL_USER" ∧
    (updateUserIntelligence accountProtoBridge "TRANSFER" "PROTOCOL_NATIVE"
      7).userType = "PROTOCOL_NATIVE" :=
  ⟨by decide,
    (updateUserIntelligence_priority accountProtoBridge "TRANSFER"
      "PROTOCOL_NATIVE" 7 (by decide)).2.1.2
      ⟨by norm_num [dexRatioOf, accountProtoBridge, initialAccount],
       by norm_num [protocolRatioOf, accountProtoBridge, initialAccount]⟩⟩

/-- C1: processing the identical event descriptor (same transaction hash
and log index) twice is not idempotent in the code: the `Transaction`
ledger record is deduplicated, but `updateAccountActivity` and
`updateEcosystemStats` sit outside the existence check and re-apply every
aggregation delta, doubling the account counters and volumes and the
daily rollups on the second delivery. -/
theorem createUniversalTransaction_duplicate_delivery :
    processedOnce.txIds = [("0xaa", 0)] ∧
    processedTwice.txIds = [("0xaa", 0)] ∧
    (processedOnce.accounts "0x01").totalTransactionCount = 1 ∧
    (processedTwice.accounts "0x01").totalTransactionCount = 2 ∧
    (processedOnce.accounts "0x02").totalVolumeIn = 100 ∧
    (processedTwice.accounts "0x02").totalVolumeIn = 200 ∧
    (processedOnce.dailyStats (getDayId 1000000)).map
      DailyEcosystemStats.protocolTransferCount = some 1 ∧
    (processedTwice.dailyStats (getDayId 1000000)).map
      DailyEcosystemStats.protocolTransferCount = some 2 ∧
    processedTwice ≠ processedOnce := by
  have h3 : (processedOnce.accounts "0x01").totalTransactionCount = 1 := by
    decide
  have h4 : (processedTwice.accounts "0x01").totalTransactionCount = 2 := by
    decide
  refine ⟨by decide, by decide, h3, h4, by decide, by decide, by decide,
    by decide, ?_⟩
  intro h
  have hc := congrArg (fun s => (s.accounts "0x01").totalTransactionCount) h
  simp only at hc
  rw [h3, h4] at hc
  exact absurd hc (by decide)

/-- C2: opening a brand-new trove (no prior record, debt 0 to 500) does
not increment `activeTroveCount`: the handler defaults the previous
status of a fresh record to `ACTIVE`, so no status transition is detected
even though `totalTroveCount` is incremented and the trove is stored as
`ACTIVE`. A same-status adjustment leaves the count unchanged and the
close decrements it, driving the count to -1. -/
theorem activeTroveCount_open_not_counted :
    (stateAfterOpen.troves "0xb1").map Trove.status = some "ACTIVE" ∧
    stateAfterOpen.protocolStats.map ProtocolStats.totalTroveCount
      = some 1 ∧
    stateAfterOpen.protocolStats.map ProtocolStats.activeTroveCount
      = some 0 ∧
    stateAfterAdjust.protocolStats.map ProtocolStats.activeTroveCount
      = some 0 ∧
    (stateAfterClose.troves "0xb1").map Trove.status
      = some "CLOSED_BY_OWNER" ∧
    stateAfterClose.protocolStats.map ProtocolStats.activeTroveCount
      = some (-1) := by
  refine ⟨by decide, by decide, by decide, by decide, by decide, by decide⟩

/-- C9: when the `ProtocolStats` singleton does not exist, a
`TroveUpdated` event still writes the `Trove` record (with the event's new
absolute collateral and debt) and appends its `TroveOperation` record,
while every protocol-stats update is silently skipped by the early
return; a liquidation stats update with no singleton is a complete no-op.
The writes of one event are therefore not all-or-nothing. -/
theorem updateProtocolStats_missing_singleton (s : TroveState)
    (ev : TroveUpdatedEv) (hs : s.protocolStats = none)
    (hc : 0 ≤ ev.coll) (hd : 0 ≤ ev.debt)
    (hcd : ev.debt ≠ 0 → ev.coll ≠ 0) :
    (handleTroveUpdated s ev).protocolStats = none ∧
    (∃ t : Trove, (handleTroveUpdated s ev).troves ev.borrower = some t ∧
      t.collateral = ev.coll ∧ t.debt = ev.debt) ∧
    (∃ op : TroveOperation,
      (handleTroveUpdated s ev).troveOps = op :: s.troveOps ∧
      op.opId = (ev.hash, ev.logIndex)) ∧
    (∀ (dl cl ts : ℤ), updateProtocolStatsForLiquidation s dl cl ts = s) := by
  have hskip : ∀ (s2 : TroveState) (tr : Trove) (st : String) (pd pc : ℤ)
      (b : Bool) (bn ts : ℤ), s2.protocolStats = none →
      updateProtocolStatsForTrove s2 tr st pd pc b bn ts = s2 := by
    intro s2 tr st pd pc b bn ts h
    unfold updateProtocolStatsForTrove
    rw [h]
  obtain ⟨t4, op, st, pd, pc, b, hres, hcol, hdebt, hop⟩ :
      ∃ (t4 : Trove) (op : TroveOperation) (st : String) (pd pc : ℤ)
        (b : Bool),
        handleTroveUpdated s ev = updateProtocolStatsForTrove
          { s with
            troves := Function.update s.troves ev.borrower (some t4),
            troveOps := op :: s.troveOps }
          t4 st pd pc b ev.blockNumber ev.timestamp ∧
        t4.collateral = ev.coll ∧ t4.debt = ev.debt ∧
        op.opId = (ev.hash, ev.logIndex) := by
    refine ⟨_, _, _, _, _, _, rfl, ?_, ?_, rfl⟩
    · show (updateTroveAnalytics _ _ _ _).collateral = ev.coll
      simp only [updateTroveAnalytics]
      split_ifs <;> rfl
    · show (updateTroveAnalytics _ _ _ _).debt = ev.debt
      simp only [updateTroveAnalytics]
      split_ifs <;> rfl
  have hfinal : handleTroveUpdated s ev =
      { s with
        troves := Function.update s.troves ev.borrower (some t4),
        troveOps := op :: s.troveOps } :=
    hres.trans (hskip _ _ _ _ _ _ _ _ hs)
  refine ⟨?_, ⟨t4, ?_, hcol, hdebt⟩, ⟨op, ?_, hop⟩, ?_⟩
  · rw [hfinal]
    exact hs
  · rw [hfinal]
    exact Function.update_same ev.borrower (some t4) s.troves
  · rw [hfinal]
  · intro dl cl ts
    unfold updateProtocolStatsForLiquidation
    rw [hs]

/-- Witness for C9: a concrete open event against a store with no
`ProtocolStats` singleton. -/
theorem updateProtocolStats_missing_singleton_witness :
    (handleTroveUpdated troveStateNoStats openTroveEv).protocolStats
      = none ∧
    (∃ t : Trove,
      (handleTroveUpdated troveStateNoStats openTroveEv).troves
        openTroveEv.borrower = some t ∧
      t.collateral = openTroveEv.coll ∧ t.debt = openTroveEv.debt) ∧
    (∃ op : TroveOperation,
      (handleTroveUpdated troveStateNoStats openTroveEv).troveOps
        = op :: troveStateNoStats.troveOps ∧
      op.opId = (openTroveEv.hash, openTroveEv.logIndex)) ∧
    (∀ (dl cl ts : ℤ),
      updateProtocolStatsForLiquidation troveStateNoStats dl cl ts
        = troveStateNoStats) :=
  updateProtocolStats_missing_singleton troveStateNoStats openTroveEv rfl
    (by decide) (by decide) (by decide)

end USDFC
